import Mathlib

/-!
Verification of the delve-registry plugin host-communication contract.

The subject is the Go plugin server embedded in
`src/github-dashboard/releases/v1.0.0/component.js` (lines 940-1206:
`PluginServer`, `Request`, `Response`, `Serve`, `handleConnection`,
`handleRequest` and the six method handlers, `Shutdown`), and the
client-side resource manager `DelvePluginSDK` of `src/unnamed/part_001`
(near-duplicated as `ResourceManager` in `component.js`).

Modelling conventions:
  * JSON values are the inductive `Json`; numbers are integers (no claim
    exercises fractional numbers).  Go's `encoding/json` codec is an
    external collaborator: marshalling is modelled by `Json.encode`
    (object keys are encoded in list order; every object built by the
    embedded handlers lists its keys in the sorted order Go's map
    marshalling produces), and unmarshalling of an incoming line is
    modelled by the `Line` alternatives (blank line / undecodable line
    with the decoder's error text / decoded `Request`), mirroring the
    three branches of `handleConnection`.
  * The Plugin Implementation (external collaborator, interface
    `PluginAPI` in the source) is a record of pure functions over its own
    state `σ`; the bytes it returns from `HandleRequest` are modelled in
    decoded form.
  * Every call the dispatcher makes into the Plugin Implementation is
    recorded in the server state's `log`, one entry per call site in the
    source, so "the Plugin Implementation's X is (not) invoked" is the
    presence (absence) of the corresponding `PluginOp` entry.
-/

/- JSON values, Go's decoding target for `interface` values; numbers modelled
as integers since no claim involves fractional values.  Arrays and objects
carry their own spine types (`JsonArr`, `JsonObj`) so that every function
on JSON is plain structural recursion. -/
mutual
inductive Json where
  | null : Json
  | bool (b : Bool) : Json
  | num (n : Int) : Json
  | str (s : String) : Json
  | arr (elems : JsonArr) : Json
  | obj (fields : JsonObj) : Json
deriving Repr
inductive JsonArr where
  | nil : JsonArr
  | cons (head : Json) (tail : JsonArr) : JsonArr
deriving Repr
inductive JsonObj where
  | nil : JsonObj
  | cons (key : String) (val : Json) (tail : JsonObj) : JsonObj
deriving Repr
end

/-- String literal encoding, as in Go's `encoding/json` (quote and backslash
escaping; the control/HTML escapes are not exercised by any claim). -/
def Json.encStr (s : String) : String :=
  "\"" ++ String.join (s.data.map (fun c =>
    if c = '\"' then "\\\"" else if c = '\\' then "\\\\" else String.singleton c)) ++ "\""

/- JSON marshalling, modelling Go's `json.Marshal`.  Object keys are encoded
in list order; the handlers below build every object with its keys already in
the sorted order Go's map marshalling emits. -/
mutual
def Json.encode : Json → String
  | .null => "null"
  | .bool true => "true"
  | .bool false => "false"
  | .num n => toString n
  | .str s => Json.encStr s
  | .arr elems => "[" ++ JsonArr.encodeItems elems ++ "]"
  | .obj fields => "\x7b" ++ JsonObj.encodeItems fields ++ "\x7d"
def JsonArr.encodeItems : JsonArr → String
  | .nil => ""
  | .cons j .nil => Json.encode j
  | .cons j (.cons j2 t) =>
      Json.encode j ++ "," ++ JsonArr.encodeItems (.cons j2 t)
def JsonObj.encodeItems : JsonObj → String
  | .nil => ""
  | .cons k v .nil => Json.encStr k ++ ":" ++ Json.encode v
  | .cons k v (.cons k2 v2 t) =>
      Json.encStr k ++ ":" ++ Json.encode v ++ "," ++ JsonObj.encodeItems (.cons k2 v2 t)
end

/-- Request wire type (`Request` struct in the source): `method` selects the
handler, `action` and `data` are handler-specific payload.  `data` is Go's
`map[string]interface\x7b\x7d`, modelled as a `JsonObj`. -/
structure Request where
  method : String
  action : String
  data : JsonObj
deriving Repr

/-- Response wire type (`Response` struct in the source).  `result` is a Go
map with `omitempty` (`none` = field absent); `error` is a Go string with
`omitempty` (`""` = field absent). -/
structure Response where
  success : Bool
  result : Option JsonObj
  error : String
deriving Repr

/-- Encoding of a `Response`, modelling Go's `json.Marshal` of the struct:
fields in declaration order, `result` and `error` dropped when empty
(`omitempty` omits both a nil and an empty map). -/
def encodeResponse (r : Response) : String :=
  "\x7b\"success\":" ++ (if r.success then "true" else "false")
    ++ (match r.result with
        | none => ""
        | some .nil => ""
        | some fields => ",\"result\":" ++ Json.encode (Json.obj fields))
    ++ (if r.error = "" then "" else ",\"error\":" ++ Json.encStr r.error)
    ++ "\x7d"

/-- One call from the dispatcher into the Plugin Implementation; each
constructor corresponds to one call site in the source handlers. -/
inductive PluginOp where
  | opInit (config : JsonObj) : PluginOp
  | opStart : PluginOp
  | opStop : PluginOp
  | opGetInfo : PluginOp
  | opHandle (method : String) (path : String) (bodyBytes : String) : PluginOp
  | opHealth (checkName : String) : PluginOp
deriving Repr

/-- The Plugin Implementation (Go interface `PluginAPI`), an external
collaborator: a record of pure functions over its private state `σ`.
`pStart` receives whether the server context passed to it is cancelled;
`pHealth` returns `some errText` when `HealthCheck` errors; `pHandle`
returns the bytes of `HandleRequest` in decoded form. -/
structure PluginAPI (σ : Type) where
  pInit : σ → JsonObj → Except String σ
  pStart : σ → Bool → Except String σ
  pStop : σ → Except String σ
  pGetInfo : σ → JsonObj
  pHandle : σ → String → String → String → Except String (Json × σ)
  pHealth : σ → String → Option String

/-- Server-side state: the Plugin Implementation's state, the instrumentation
log of calls made into it, and the `PluginServer` fields relevant to
shutdown (`ctx` cancellation, listener closed). -/
structure ServerState (σ : Type) where
  plugin : σ
  log : List PluginOp
  ctxCancelled : Bool
  listenerClosed : Bool

/-- Lookup in a decoded JSON object, modelling Go map indexing
(`req.Data[key]`); `none` models the missing-key zero value. -/
def lookupField : JsonObj → String → Option Json
  | .nil, _ => none
  | .cons k v t, key => if k = key then some v else lookupField t key

/-- Go's `req.Data[key].(string)` with the `ok` result discarded: the empty
string when the key is absent or not a string. -/
def getDataString (req : Request) (key : String) : String :=
  match lookupField req.data key with
  | some (.str s) => s
  | _ => ""

/-- Handler for `health_check` (`handleHealthCheck` in the source): always
`success:true`; an erroring `HealthCheck` is reported as
`healthy:false` with the error text as `message`. -/
def handleHealthCheck {σ : Type} (api : PluginAPI σ) (s : ServerState σ)
    (req : Request) : ServerState σ × Response :=
  let checkName := getDataString req "check_name"
  let s' := { s with log := s.log ++ [PluginOp.opHealth checkName] }
  match api.pHealth s.plugin checkName with
  | some msg =>
      (s', { success := true,
             result := some (JsonObj.cons "healthy" (Json.bool false)
               (JsonObj.cons "message" (Json.str msg) JsonObj.nil)),
             error := "" })
  | none =>
      (s', { success := true,
             result := some (JsonObj.cons "healthy" (Json.bool true)
               (JsonObj.cons "message" (Json.str "OK") JsonObj.nil)),
             error := "" })

/-- Handler for `execute_action` (`handleExecuteAction` in the source): it
marshals `req.Data["data"]` (the `"data"` entry of the request's data
mapping, Go `nil` hence JSON `null` when absent) and forwards the bytes to
`HandleRequest("POST", "/execute", bytes)`; on success the decoded reply is
wrapped as `result:\x7b"result": value\x7d`, on failure the error text is
propagated verbatim. -/
def handleExecuteAction {σ : Type} (api : PluginAPI σ) (s : ServerState σ)
    (req : Request) : ServerState σ × Response :=
  let body := (lookupField req.data "data").getD Json.null
  let bodyBytes := Json.encode body
  let s' := { s with log := s.log ++ [PluginOp.opHandle "POST" "/execute" bodyBytes] }
  match api.pHandle s.plugin "POST" "/execute" bodyBytes with
  | .error e => (s', { success := false, result := none, error := e })
  | .ok (resultData, p') =>
      ({ s' with plugin := p' },
       { success := true,
         result := some (JsonObj.cons "result" resultData JsonObj.nil),
         error := "" })

/-- Handler for `get_info` (`handleGetInfo` in the source): read-only,
returns the Plugin Implementation's info map. -/
def handleGetInfo {σ : Type} (api : PluginAPI σ) (s : ServerState σ)
    (_req : Request) : ServerState σ × Response :=
  let s' := { s with log := s.log ++ [PluginOp.opGetInfo] }
  (s', { success := true, result := some (api.pGetInfo s.plugin), error := "" })

/-- Handler for `initialize` (`handleInitialize` in the source): requires
`req.Data["config"]` to be a JSON object (Go type assertion to
`map[string]interface\x7b\x7d`), else returns the error Response
"config is required" without touching the Plugin Implementation; otherwise
delegates to `Initialize` and propagates its error verbatim. -/
def handleInit {σ : Type} (api : PluginAPI σ) (s : ServerState σ)
    (req : Request) : ServerState σ × Response :=
  match lookupField req.data "config" with
  | some (.obj config) =>
      let s' := { s with log := s.log ++ [PluginOp.opInit config] }
      match api.pInit s.plugin config with
      | .error e => (s', { success := false, result := none, error := e })
      | .ok p' => ({ s' with plugin := p' }, { success := true, result := none, error := "" })
  | _ => (s, { success := false, result := none, error := "config is required" })

/-- Handler for `start` (`handleStart` in the source): unconditionally calls
the Plugin Implementation's `Start` with the server context — the source
consults no lifecycle state before doing so. -/
def handleStart {σ : Type} (api : PluginAPI σ) (s : ServerState σ)
    (_req : Request) : ServerState σ × Response :=
  let s' := { s with log := s.log ++ [PluginOp.opStart] }
  match api.pStart s.plugin s.ctxCancelled with
  | .error e => (s', { success := false, result := none, error := e })
  | .ok p' => ({ s' with plugin := p' }, { success := true, result := none, error := "" })

/-- Handler for `stop` (`handleStop` in the source): unconditionally calls
the Plugin Implementation's `Stop`. -/
def handleStop {σ : Type} (api : PluginAPI σ) (s : ServerState σ)
    (_req : Request) : ServerState σ × Response :=
  let s' := { s with log := s.log ++ [PluginOp.opStop] }
  match api.pStop s.plugin with
  | .error e => (s', { success := false, result := none, error := e })
  | .ok p' => ({ s' with plugin := p' }, { success := true, result := none, error := "" })

/-- Method dispatch (`handleRequest` in the source): fixed table of six
methods; anything else yields the unknown-method error Response with no
side effect. -/
def handleRequest {σ : Type} (api : PluginAPI σ) (s : ServerState σ)
    (req : Request) : ServerState σ × Response :=
  if req.method = "health_check" then handleHealthCheck api s req
  else if req.method = "execute_action" then handleExecuteAction api s req
  else if req.method = "get_info" then handleGetInfo api s req
  else if req.method = "initialize" then handleInit api s req
  else if req.method = "start" then handleStart api s req
  else if req.method = "stop" then handleStop api s req
  else (s, { success := false, result := none,
             error := "unknown method: " ++ req.method })

/-- One line read from a connection, after the external JSON decoder ran:
exactly the three branches of `handleConnection` in the source — the empty
line, a line `json.Unmarshal` rejects (with the decoder's error text), or a
decoded `Request`. -/
inductive Line where
  | blank : Line
  | malformed (errText : String) : Line
  | request (r : Request) : Line

/-- Processing of one line (`handleConnection` loop body): an empty line is
skipped with no Response, an undecodable line yields the
"invalid request format" error Response, a decoded Request is dispatched;
exactly one Response is written for each non-blank line. -/
def processLine {σ : Type} (api : PluginAPI σ) (s : ServerState σ) :
    Line → ServerState σ × List Response
  | .blank => (s, [])
  | .malformed e =>
      (s, [{ success := false, result := none,
             error := "invalid request format: " ++ e }])
  | .request r =>
      let p := handleRequest api s r
      (p.1, [p.2])

/-- The per-connection loop (`handleConnection` in the source): lines are
processed strictly in the order read, each Response appended to the
connection's output in that order. -/
def handleConn {σ : Type} (api : PluginAPI σ) (s : ServerState σ) :
    List Line → ServerState σ × List Response
  | [] => (s, [])
  | l :: rest =>
      let p := processLine api s l
      let q := handleConn api p.1 rest
      (q.1, p.2 ++ q.2)

/-- Whether a line is read as a request (every non-blank line: blank lines
are skipped before decoding is attempted). -/
def isRequestLine : Line → Bool
  | .blank => false
  | .malformed _ => true
  | .request _ => true

/-- Server shutdown (`Shutdown` in the source): cancels the server context
and closes the listening socket. -/
def shutdownServer {σ : Type} (s : ServerState σ) : ServerState σ :=
  { s with ctxCancelled := true, listenerClosed := true }

/-- Outcome of one `Accept` call on the listener. -/
inductive AcceptOutcome where
  | newConn : AcceptOutcome
  | acceptErr : AcceptOutcome
deriving DecidableEq, Repr

/-- Model of the socket semantics the `Serve` loop relies on: closing the
listener makes a (possibly already blocked) `Accept` return an error instead
of blocking until the next connection. -/
def acceptOn {σ : Type} (s : ServerState σ) : AcceptOutcome :=
  if s.listenerClosed then AcceptOutcome.acceptErr else AcceptOutcome.newConn

/-- What one iteration of the `Serve` loop does next. -/
inductive ServeStep where
  | returnNil : ServeStep
  | handleNewConn : ServeStep
  | logErrAndContinue : ServeStep
deriving DecidableEq, Repr

/-- The `Serve` loop's handling of an `Accept` result (the error branch
checks `s.ctx.Err() != nil` and returns nil when shutting down, otherwise
logs and continues). -/
def serveAfterAccept {σ : Type} (s : ServerState σ) : AcceptOutcome → ServeStep
  | AcceptOutcome.newConn => ServeStep.handleNewConn
  | AcceptOutcome.acceptErr =>
      if s.ctxCancelled then ServeStep.returnNil else ServeStep.logErrAndContinue

/-- One full iteration of the `Serve` loop: the select first polls
`ctx.Done()`, then blocks in `Accept`. -/
def serveStep {σ : Type} (s : ServerState σ) : ServeStep :=
  if s.ctxCancelled then ServeStep.returnNil
  else serveAfterAccept s (acceptOn s)

/-- Insertion into a JS `Set`: a no-op when the element is already present,
otherwise appended (JS sets preserve insertion order). -/
def addUnique {α : Type} [DecidableEq α] (l : List α) (x : α) : List α :=
  if x ∈ l then l else l ++ [x]

/-- Client-side resource manager (`DelvePluginSDK` in `src/unnamed/part_001`;
`ResourceManager` in `component.js` is a near-duplicate with the same guard,
registries and handler loop).  Timer handles, listener targets, handler
functions and option objects are identified by numeric ids; a managed
WebSocket is a pair of its id and its `readyState` at cleanup time
(CONNECTING = 0, OPEN = 1). -/
structure SDK where
  cleanupHandlers : List Nat
  isShuttingDown : Bool
  intervals : List Nat
  timeouts : List Nat
  eventListeners : List (Nat × List (String × Nat × Nat))
  websockets : List (Nat × Nat)
deriving Repr

/-- Fresh manager, as built by the constructor: empty registries, latch
unset. -/
def SDK.fresh : SDK :=
  { cleanupHandlers := [], isShuttingDown := false, intervals := [],
    timeouts := [], eventListeners := [], websockets := [] }

/-- Registers a cleanup handler (`onCleanup`): `Set.add`, so duplicate
registration of the same function reference is a no-op.  The source's
`typeof handler === function` guard is implicit: handler ids always denote
functions. -/
def onCleanup (m : SDK) (handler : Nat) : SDK :=
  { m with cleanupHandlers := addUnique m.cleanupHandlers handler }

/-- Starts a managed interval timer (`setManagedInterval`): the fresh id
produced by the environment's `setInterval` is tracked and returned.  The
registry is updated unconditionally — there is no `isShuttingDown` check. -/
def setManagedInterval (m : SDK) (intervalId : Nat) : SDK × Nat :=
  ({ m with intervals := addUnique m.intervals intervalId }, intervalId)

/-- Starts a managed timeout timer (`setManagedTimeout`). -/
def setManagedTimeout (m : SDK) (timeoutId : Nat) : SDK × Nat :=
  ({ m with timeouts := addUnique m.timeouts timeoutId }, timeoutId)

/-- Binds and tracks an event listener (`addManagedEventListener`): the
binding is pushed onto the target's list, creating the list on first use. -/
def addManagedEventListener (m : SDK) (target : Nat) (event : String)
    (handler : Nat) (opts : Nat) : SDK :=
  match m.eventListeners.find? (fun p => p.1 = target) with
  | none =>
      { m with eventListeners := m.eventListeners ++ [(target, [(event, handler, opts)])] }
  | some _ =>
      { m with eventListeners := m.eventListeners.map (fun p =>
          if p.1 = target then (p.1, p.2 ++ [(event, handler, opts)]) else p) }

/-- Tracks a socket for forced closure (`addManagedWebSocket`); the
self-deregistration on the socket's own close event is an external callback
outside the claims under verification. -/
def addManagedWebSocket (m : SDK) (socket : Nat × Nat) : SDK :=
  { m with websockets := addUnique m.websockets socket }

/-- Early cancellation of a managed interval (`clearManagedInterval`):
clears the timer and removes the handle (`Set.delete`, a no-op when the
handle was already removed). -/
def clearManagedInterval (m : SDK) (intervalId : Nat) : SDK :=
  { m with intervals := m.intervals.filter (fun i => i ≠ intervalId) }

/-- Early cancellation of a managed timeout (`clearManagedTimeout`). -/
def clearManagedTimeout (m : SDK) (timeoutId : Nat) : SDK :=
  { m with timeouts := m.timeouts.filter (fun i => i ≠ timeoutId) }

/-- Record of the external effects one `cleanup()` call performs, in the
source's order: timers cleared, listeners removed, open/connecting sockets
closed with the normal-closure code, then registered handlers run (each
wrapped in try/catch, so a throwing handler never stops the loop). -/
structure CleanupLog where
  clearedIntervals : List Nat := []
  clearedTimeouts : List Nat := []
  removedListeners : List (Nat × (String × Nat × Nat)) := []
  closedSockets : List Nat := []
  ranHandlers : List Nat := []
deriving Repr

/-- The one-shot teardown (`cleanup` in the source): the `isShuttingDown`
guard makes any call after the first a pure no-op; the first call clears
every registry as it drains it and runs every registered handler. -/
def cleanup (m : SDK) : SDK × CleanupLog :=
  if m.isShuttingDown then (m, {})
  else
    ({ cleanupHandlers := [], isShuttingDown := true, intervals := [],
       timeouts := [], eventListeners := [], websockets := [] },
     { clearedIntervals := m.intervals,
       clearedTimeouts := m.timeouts,
       removedListeners :=
         (m.eventListeners.map (fun p => p.2.map (fun l => (p.1, l)))).flatten,
       closedSockets :=
         ((m.websockets.filter (fun w => w.2 = 0 ∨ w.2 = 1)).map (fun w => w.1)),
       ranHandlers := m.cleanupHandlers })

/-- Registration requests the UI can issue against the manager, one per
registering operation of the source API. -/
inductive RegOp where
  | regHandler (handler : Nat) : RegOp
  | regInterval (intervalId : Nat) : RegOp
  | regTimeout (timeoutId : Nat) : RegOp
  | regListener (target : Nat) (event : String) (handler : Nat) (opts : Nat) : RegOp
  | regSocket (socketId : Nat) (readyState : Nat) : RegOp

/-- Applies one registration to the manager. -/
def applyReg (m : SDK) : RegOp → SDK
  | .regHandler h => onCleanup m h
  | .regInterval i => (setManagedInterval m i).1
  | .regTimeout t => (setManagedTimeout m t).1
  | .regListener t e h o => addManagedEventListener m t e h o
  | .regSocket sid st => addManagedWebSocket m (sid, st)

/-- Stateless demonstration Plugin Implementation whose operations all
succeed; used to evaluate the dispatcher at concrete inputs. -/
def demoApi : PluginAPI Unit :=
  { pInit := fun _ _ => Except.ok ()
  , pStart := fun _ _ => Except.ok ()
  , pStop := fun _ => Except.ok ()
  , pGetInfo := fun _ => JsonObj.nil
  , pHandle := fun _ _ _ _ => Except.ok (Json.null, ())
  , pHealth := fun _ _ => none }

/-- Plugin Implementation whose `HealthCheck` fails with the error
"unreachable" on every check. -/
def unreachableApi : PluginAPI Unit :=
  { demoApi with pHealth := fun _ _ => some "unreachable" }

/-- Server state right after `NewPluginServer`: fresh context, open
listener, no call has reached the Plugin Implementation (in particular, no
initialize request has ever succeeded). -/
def initState : ServerState Unit :=
  { plugin := (), log := [], ctxCancelled := false, listenerClosed := false }

/-- Concrete start request. -/
def reqStart : Request := { method := "start", action := "", data := JsonObj.nil }

/-- Concrete health-check request naming check "x" (spec scenario literal). -/
def reqHealthX : Request :=
  { method := "health_check", action := "",
    data := JsonObj.cons "check_name" (Json.str "x") JsonObj.nil }

/-- Concrete execute_action request whose data mapping has one entry
"x": "1" (and no "data" entry). -/
def reqExec : Request :=
  { method := "execute_action", action := "",
    data := JsonObj.cons "x" (Json.str "1") JsonObj.nil }

/-- Skipping blank lines and dispatching the rest is invariant under
pre-filtering the blank lines away. -/
theorem handleConn_eq_filter {σ : Type} (api : PluginAPI σ) :
    ∀ (lines : List Line) (s : ServerState σ),
      handleConn api s lines = handleConn api s (lines.filter isRequestLine) := by
  intro lines
  induction lines with
  | nil => intro s; rfl
  | cons l rest ih =>
      intro s
      cases l with
      | blank => simpa [handleConn, processLine, isRequestLine] using ih s
      | malformed e => simp [handleConn, isRequestLine, ih]
      | request r => simp [handleConn, isRequestLine, ih]

/-- A non-blank line produces exactly one Response. -/
theorem processLine_singleton {σ : Type} (api : PluginAPI σ) (s : ServerState σ)
    (l : Line) (h : isRequestLine l = true) : (processLine api s l).2.length = 1 := by
  cases l with
  | blank => simp [isRequestLine] at h
  | malformed e => rfl
  | request r => rfl

/-- The connection loop emits exactly one Response per non-blank line. -/
theorem handleConn_length {σ : Type} (api : PluginAPI σ) :
    ∀ (lines : List Line) (s : ServerState σ),
      (handleConn api s lines).2.length = (lines.filter isRequestLine).length := by
  intro lines
  induction lines with
  | nil => intro s; rfl
  | cons l rest ih =>
      intro s
      cases l with
      | blank => simpa [handleConn, processLine, isRequestLine] using ih s
      | malformed e => simp [handleConn, processLine, isRequestLine, ih]
      | request r => simp [handleConn, processLine, isRequestLine, ih]

/-- Filtering by a predicate that is false somewhere strictly shortens the
list. -/
theorem length_filter_lt_of_mem {α : Type} (p : α → Bool) :
    ∀ (l : List α) (x : α), x ∈ l → p x = false → (l.filter p).length < l.length := by
  intro l
  induction l with
  | nil => intro x hx _; cases hx
  | cons a t ih =>
      intro x hx hp
      rcases List.mem_cons.mp hx with rfl | hxt
      · rw [List.filter_cons, hp]
        exact Nat.lt_succ_of_le (List.length_filter_le p t)
      · rw [List.filter_cons]
        cases hpa : p a
        · simp only [hpa, Bool.false_eq_true, if_false]
          exact Nat.lt_succ_of_lt (ih x hxt hp)
        · simp only [hpa, if_true, List.length_cons]
          exact Nat.succ_lt_succ (ih x hxt hp)

/-- C2: on any one connection, the server emits exactly one Response per
request line (the lines read as requests are exactly the non-blank lines),
and responses appear in the order their requests were read: the loop equals
its restriction to request lines, its output length equals the number of
request lines, and each request line contributes its single Response ahead
of everything produced by the lines after it. -/
theorem c2_one_response_per_request {σ : Type} (api : PluginAPI σ)
    (s : ServerState σ) (lines : List Line) (l : Line) (rest : List Line)
    (h : isRequestLine l = true) :
    handleConn api s lines = handleConn api s (lines.filter isRequestLine)
    ∧ (handleConn api s lines).2.length = (lines.filter isRequestLine).length
    ∧ (handleConn api s (l :: rest)).2
        = (processLine api s l).2 ++ (handleConn api (processLine api s l).1 rest).2
    ∧ (processLine api s l).2.length = 1 :=
  ⟨handleConn_eq_filter api lines s,
   handleConn_length api lines s,
   rfl,
   processLine_singleton api s l h⟩

/-- Closed instance of C2 on a two-line connection input. -/
theorem c2_one_response_per_request_witness :
    isRequestLine (Line.request reqStart) = true
    ∧ (handleConn demoApi initState [Line.blank, Line.request reqStart]).2.length
      = ([Line.blank, Line.request reqStart].filter isRequestLine).length :=
  ⟨rfl, (c2_one_response_per_request demoApi initState
      [Line.blank, Line.request reqStart] (Line.request reqStart) [] rfl).2.1⟩

/-- C5: a line the JSON decoder rejects yields the error Response
"invalid request format: ..." with success:false, and the loop then carries
on from the same state: the remaining lines — in particular any subsequent
well-formed request — are handled exactly as they otherwise would be, so
the connection is not closed by the malformed line. -/
theorem c5_malformed_line_recoverable {σ : Type} (api : PluginAPI σ)
    (s : ServerState σ) (e : String) (rest : List Line) :
    processLine api s (Line.malformed e)
      = (s, [{ success := false, result := none,
               error := "invalid request format: " ++ e }])
    ∧ handleConn api s (Line.malformed e :: rest)
      = ((handleConn api s rest).1,
         { success := false, result := none,
           error := "invalid request format: " ++ e } :: (handleConn api s rest).2) :=
  ⟨rfl, rfl⟩

/-- C9: `Shutdown` cancels the server context and also closes the listening
socket; a closed listener makes a blocked `Accept` return an error instead
of waiting for the next connection, and the `Serve` loop's error branch then
returns nil because the context is cancelled — so `Serve` returns normally
rather than hanging. -/
theorem c9_shutdown_unblocks_accept {σ : Type} (s : ServerState σ) :
    (shutdownServer s).ctxCancelled = true
    ∧ (shutdownServer s).listenerClosed = true
    ∧ acceptOn (shutdownServer s) = AcceptOutcome.acceptErr
    ∧ serveAfterAccept (shutdownServer s) AcceptOutcome.acceptErr = ServeStep.returnNil
    ∧ serveStep (shutdownServer s) = ServeStep.returnNil :=
  ⟨rfl, rfl, rfl, rfl, rfl⟩

/-- C10: a blank input line is silently skipped — it produces no Response at
all rather than a malformed-JSON error — so a connection whose input
includes a blank line receives strictly fewer responses than lines sent. -/
theorem c10_blank_line_no_response {σ : Type} (api : PluginAPI σ)
    (s : ServerState σ) (lines : List Line) (hb : Line.blank ∈ lines) :
    processLine api s Line.blank = (s, [])
    ∧ (handleConn api s lines).2.length < lines.length := by
  refine ⟨rfl, ?_⟩
  rw [handleConn_length api lines s]
  exact length_filter_lt_of_mem isRequestLine lines Line.blank hb rfl

/-- Closed instance of C10: one blank line and one request line sent, one
response received. -/
theorem c10_blank_line_no_response_witness :
    (handleConn demoApi initState [Line.blank, Line.request reqStart]).2.length
      < [Line.blank, Line.request reqStart].length :=
  (c10_blank_line_no_response demoApi initState
    [Line.blank, Line.request reqStart] (List.Mem.head _)).2

/-- C1 counterexample: from the fresh server state (no initialize request
was ever received, let alone succeeded) a start request is not rejected —
the dispatcher invokes the Plugin Implementation's Start (the call log gains
the Start entry) and, Start succeeding, answers success:true with no
error rather than an error Response. -/
theorem c1_counterexample :
    (handleRequest demoApi initState reqStart).2.success = true
    ∧ (handleRequest demoApi initState reqStart).2.error = ""
    ∧ (handleRequest demoApi initState reqStart).1.log = [PluginOp.opStart] :=
  ⟨rfl, rfl, rfl⟩

/-- C1 (amended): a start request is never rejected by any lifecycle
check — regardless of whether an initialize request previously succeeded,
the dispatcher unconditionally invokes the Plugin Implementation's Start
(with the server context), returning success:true when Start succeeds and
success:false with Start's error text verbatim when it fails. -/
theorem c1_start_always_delegates {σ : Type} (api : PluginAPI σ)
    (s : ServerState σ) (req : Request) (h : req.method = "start") :
    (handleRequest api s req).1.log = s.log ++ [PluginOp.opStart]
    ∧ (∀ p', api.pStart s.plugin s.ctxCancelled = Except.ok p'
        → (handleRequest api s req).2 = { success := true, result := none, error := "" })
    ∧ (∀ e, api.pStart s.plugin s.ctxCancelled = Except.error e
        → (handleRequest api s req).2 = { success := false, result := none, error := e }) := by
  have hr : handleRequest api s req = handleStart api s req := by
    simp [handleRequest, h]
  refine ⟨?_, ?_, ?_⟩
  · rw [hr]
    rcases hp : api.pStart s.plugin s.ctxCancelled with e | p' <;> simp [handleStart, hp]
  · intro p' hp
    rw [hr]; simp [handleStart, hp]
  · intro e hp
    rw [hr]; simp [handleStart, hp]

/-- Closed instance of the amended C1: the concrete start request against
the all-succeeding plugin from the fresh state. -/
theorem c1_start_always_delegates_witness :
    (handleRequest demoApi initState reqStart).1.log = [PluginOp.opStart]
    ∧ (handleRequest demoApi initState reqStart).2
      = { success := true, result := none, error := "" } := by
  have h := c1_start_always_delegates demoApi initState reqStart rfl
  exact ⟨by simpa using h.1, h.2.1 () rfl⟩

/-- C3: a health_check request whose check the Plugin Implementation reports
as failing (HealthCheck returns an error) is answered success:true with
result healthy:false and message equal to the error text; and the Response
of the spec's literal scenario (error text "unreachable") marshals to
exactly the literal \x7b"success":true,"result":\x7b"healthy":false,
"message":"unreachable"\x7d\x7d. -/
theorem c3_health_check_failure {σ : Type} (api : PluginAPI σ)
    (s : ServerState σ) (req : Request) (msg : String)
    (hm : req.method = "health_check")
    (hh : api.pHealth s.plugin (getDataString req "check_name") = some msg) :
    (handleRequest api s req).2
      = { success := true,
          result := some (JsonObj.cons "healthy" (Json.bool false)
            (JsonObj.cons "message" (Json.str msg) JsonObj.nil)),
          error := "" }
    ∧ encodeResponse
        { success := true,
          result := some (JsonObj.cons "healthy" (Json.bool false)
            (JsonObj.cons "message" (Json.str "unreachable") JsonObj.nil)),
          error := "" }
      = "\x7b\"success\":true,\"result\":\x7b\"healthy\":false,\"message\":\"unreachable\"\x7d\x7d" := by
  have hr : handleRequest api s req = handleHealthCheck api s req := by
    simp [handleRequest, hm]
  refine ⟨?_, rfl⟩
  rw [hr]; simp [handleHealthCheck, hh]

/-- Closed instance of C3: the spec's literal request
\x7b"method":"health_check","action":"","data":\x7b"check_name":"x"\x7d\x7d
against the plugin whose HealthCheck fails with "unreachable". -/
theorem c3_health_check_failure_witness :
    (handleRequest unreachableApi initState reqHealthX).2
      = { success := true,
          result := some (JsonObj.cons "healthy" (Json.bool false)
            (JsonObj.cons "message" (Json.str "unreachable") JsonObj.nil)),
          error := "" }
    ∧ encodeResponse (handleRequest unreachableApi initState reqHealthX).2
      = "\x7b\"success\":true,\"result\":\x7b\"healthy\":false,\"message\":\"unreachable\"\x7d\x7d" := by
  have h := c3_health_check_failure unreachableApi initState reqHealthX "unreachable" rfl rfl
  exact ⟨h.1, by rw [h.1]; exact h.2⟩

/-- C4: an initialize request whose data has no config mapping (the key is
absent, or present but not an object) is answered success:false with the
error "config is required", the Plugin Implementation's Initialize is not
invoked (the call log is untouched), and the server state is returned
entirely unchanged — no state mutation happens on this error path. -/
theorem c4_init_missing_config {σ : Type} (api : PluginAPI σ)
    (s : ServerState σ) (req : Request) (hm : req.method = "initialize")
    (hc : ∀ cfg, lookupField req.data "config" ≠ some (Json.obj cfg)) :
    handleRequest api s req
      = (s, { success := false, result := none, error := "config is required" }) := by
  have hr : handleRequest api s req = handleInit api s req := by
    simp [handleRequest, hm]
  rw [hr]
  rcases hcase : lookupField req.data "config" with _ | j
  · simp [handleInit, hcase]
  · cases j with
    | obj cfg => exact absurd hcase (hc cfg)
    | null => simp [handleInit, hcase]
    | bool b => simp [handleInit, hcase]
    | num n => simp [handleInit, hcase]
    | str s2 => simp [handleInit, hcase]
    | arr a => simp [handleInit, hcase]

/-- Closed instance of C4: an initialize request with an empty data
mapping. -/
theorem c4_init_missing_config_witness :
    handleRequest demoApi initState { method := "initialize", action := "", data := JsonObj.nil }
      = (initState, { success := false, result := none, error := "config is required" }) :=
  c4_init_missing_config demoApi initState _ rfl
    (by intro cfg hx; simp [lookupField] at hx)

/-- Body bytes `handleExecuteAction` actually forwards to `HandleRequest`:
the marshalling of the "data" entry of the request's data mapping (Go `nil`,
hence JSON null, when that entry is absent). -/
def executeBodyBytes (req : Request) : String :=
  Json.encode ((lookupField req.data "data").getD Json.null)

/-- Modelled from the spec's words, for comparison only: the JSON encoding
of the request's data mapping itself. -/
def specExecuteBodyBytes (req : Request) : String :=
  Json.encode (Json.obj req.data)

/-- Plugin Implementation whose HandleRequest replies with the object
\x7b"a":"b"\x7d. -/
def echoApi : PluginAPI Unit :=
  { demoApi with
    pHandle := fun _ _ _ _ =>
      Except.ok (Json.obj (JsonObj.cons "a" (Json.str "b") JsonObj.nil), ()) }

/-- C6 counterexample: for the concrete execute_action request whose data
mapping is \x7b"x":"1"\x7d (no "data" entry), the dispatcher forwards the
bytes "null" — the encoding of data["data"], not of the request's data —
while the claim's reading would forward the encoding of the data mapping
itself; the two byte strings differ.  And when the Plugin Implementation
replies with the object \x7b"a":"b"\x7d, the decoded reply does not become
the result field: the result mapping is \x7b"result":\x7b"a":"b"\x7d\x7d. -/
theorem c6_counterexample :
    (handleRequest demoApi initState reqExec).1.log
      = [PluginOp.opHandle "POST" "/execute" (executeBodyBytes reqExec)]
    ∧ executeBodyBytes reqExec = "null"
    ∧ specExecuteBodyBytes reqExec = "\x7b\"x\":\"1\"\x7d"
    ∧ executeBodyBytes reqExec ≠ specExecuteBodyBytes reqExec
    ∧ (handleRequest echoApi initState reqExec).2.result
      = some (JsonObj.cons "result"
          (Json.obj (JsonObj.cons "a" (Json.str "b") JsonObj.nil)) JsonObj.nil)
    ∧ (handleRequest echoApi initState reqExec).2.result
      ≠ some (JsonObj.cons "a" (Json.str "b") JsonObj.nil) := by
  have h5 : (handleRequest echoApi initState reqExec).2.result
      = some (JsonObj.cons "result"
          (Json.obj (JsonObj.cons "a" (Json.str "b") JsonObj.nil)) JsonObj.nil) := rfl
  refine ⟨rfl, rfl, rfl, by decide, h5, ?_⟩
  rw [h5]
  intro hx
  simp at hx

/-- C6 (amended): an execute_action request makes the dispatcher call the
Plugin Implementation's HandleRequest with method "POST", path "/execute"
and the JSON encoding of the "data" entry of the request's data mapping
(JSON null when absent); on success the re-decoded reply is placed under the
key "result" inside the Response's result mapping, and on failure the Plugin
Implementation's error text is propagated verbatim with success:false. -/
theorem c6_execute_forwards_data_entry {σ : Type} (api : PluginAPI σ)
    (s : ServerState σ) (req : Request) (hm : req.method = "execute_action") :
    (handleRequest api s req).1.log
      = s.log ++ [PluginOp.opHandle "POST" "/execute" (executeBodyBytes req)]
    ∧ (∀ v p', api.pHandle s.plugin "POST" "/execute" (executeBodyBytes req)
          = Except.ok (v, p')
        → (handleRequest api s req).2
          = { success := true,
              result := some (JsonObj.cons "result" v JsonObj.nil), error := "" })
    ∧ (∀ e, api.pHandle s.plugin "POST" "/execute" (executeBodyBytes req)
          = Except.error e
        → (handleRequest api s req).2
          = { success := false, result := none, error := e }) := by
  have hr : handleRequest api s req = handleExecuteAction api s req := by
    simp [handleRequest, hm]
  refine ⟨?_, ?_, ?_⟩
  · rw [hr]
    rcases hp : api.pHandle s.plugin "POST" "/execute" (executeBodyBytes req) with e | ⟨v, p'⟩
      <;> simp [handleExecuteAction, executeBodyBytes, hp] at hp ⊢
  · intro v p' hp
    rw [hr]; simp [handleExecuteAction, executeBodyBytes] at hp ⊢; simp [hp]
  · intro e hp
    rw [hr]; simp [handleExecuteAction, executeBodyBytes] at hp ⊢; simp [hp]

/-- Closed instance of the amended C6 at the concrete request (the
all-succeeding plugin replies null, which lands under result.result). -/
theorem c6_execute_forwards_data_entry_witness :
    (handleRequest demoApi initState reqExec).1.log
      = [PluginOp.opHandle "POST" "/execute" (executeBodyBytes reqExec)]
    ∧ (handleRequest demoApi initState reqExec).2
      = { success := true,
          result := some (JsonObj.cons "result" Json.null JsonObj.nil),
          error := "" } := by
  have h := c6_execute_forwards_data_entry demoApi initState reqExec rfl
  exact ⟨by simpa using h.1, h.2.1 Json.null () rfl⟩

/-- Concrete manager with two cleanup handlers, timers, a listener binding
and two sockets (one open, one already closed). -/
def sdkDemo : SDK :=
  { cleanupHandlers := [5, 7], isShuttingDown := false, intervals := [1],
    timeouts := [2], eventListeners := [(3, [("click", 4, 0)])],
    websockets := [(8, 1), (9, 3)] }

/-- A manager on which cleanup has already run: the shut-down state of the
demonstration manager. -/
def sdkShut : SDK := (cleanup sdkDemo).1

/-- A cleanup call on a manager whose latch is already set returns
immediately: the state is untouched and no teardown action is performed. -/
theorem cleanup_of_shut (m : SDK) (h : m.isShuttingDown = true) :
    cleanup m = (m, {}) := by
  simp [cleanup, h]

/-- C7: on a manager whose shutdown latch is unset (its handler set, being a
set, holds no duplicates), the first cleanup() call runs exactly the
handlers registered before it — each exactly once — and the second call is
a pure no-op: it invokes no handler, performs no teardown action and leaves
every registry (the whole manager state) unchanged. -/
theorem c7_cleanup_runs_handlers_once (m : SDK) (hs : m.isShuttingDown = false)
    (hn : m.cleanupHandlers.Nodup) :
    (cleanup m).2.ranHandlers = m.cleanupHandlers
    ∧ (∀ h ∈ m.cleanupHandlers, (cleanup m).2.ranHandlers.count h = 1)
    ∧ cleanup (cleanup m).1 = ((cleanup m).1, {}) := by
  have h1 : (cleanup m).2.ranHandlers = m.cleanupHandlers := by
    simp [cleanup, hs]
  have h2 : (cleanup m).1.isShuttingDown = true := by
    simp [cleanup, hs]
  refine ⟨h1, ?_, cleanup_of_shut (cleanup m).1 h2⟩
  intro h hm
  rw [h1]
  exact List.count_eq_one_of_mem hn hm

/-- Closed instance of C7 on the demonstration manager. -/
theorem c7_cleanup_runs_handlers_once_witness :
    (cleanup sdkDemo).2.ranHandlers = [5, 7]
    ∧ cleanup (cleanup sdkDemo).1 = ((cleanup sdkDemo).1, {}) := by
  have h := c7_cleanup_runs_handlers_once sdkDemo rfl (by decide)
  exact ⟨h.1, h.2.2⟩

/-- No registering operation touches the shutdown latch. -/
theorem applyReg_shuttingDown (m : SDK) (op : RegOp) :
    (applyReg m op).isShuttingDown = m.isShuttingDown := by
  cases op with
  | regHandler h => rfl
  | regInterval i => rfl
  | regTimeout t => rfl
  | regListener t e h o =>
      rcases hf : m.eventListeners.find? (fun p => p.1 = t) with _ | q
        <;> simp [applyReg, addManagedEventListener, hf]
  | regSocket sid st => rfl

/-- The latch survives any sequence of registrations. -/
theorem foldl_applyReg_shuttingDown (ops : List RegOp) :
    ∀ m : SDK, (ops.foldl applyReg m).isShuttingDown = m.isShuttingDown := by
  induction ops with
  | nil => intro m; rfl
  | cons op rest ih =>
      intro m
      rw [List.foldl_cons, ih (applyReg m op), applyReg_shuttingDown]

/-- C8: the shutdown latch is irreversible — once `isShuttingDown` is set,
registering new resources is still permitted (e.g. `setManagedInterval`
still records the timer handle and returns it), but after any sequence of
further registrations a later cleanup() call is a pure no-op: it clears no
timer, removes no listener, closes no socket, runs no handler and changes
no registry, so the newly registered resources are never released by the
manager. -/
theorem c8_latch_irreversible (m : SDK) (ops : List RegOp) (intervalId : Nat)
    (hs : m.isShuttingDown = true) :
    (ops.foldl applyReg m).isShuttingDown = true
    ∧ cleanup (ops.foldl applyReg m) = (ops.foldl applyReg m, {})
    ∧ (setManagedInterval m intervalId).2 = intervalId
    ∧ (setManagedInterval m intervalId).1.intervals = addUnique m.intervals intervalId := by
  have h1 : (ops.foldl applyReg m).isShuttingDown = true := by
    rw [foldl_applyReg_shuttingDown ops m, hs]
  exact ⟨h1, cleanup_of_shut (ops.foldl applyReg m) h1, rfl, rfl⟩

/-- Closed instance of C8: the already-shut-down manager accepts an interval
and a handler registration, and cleanup afterwards is still a no-op. -/
theorem c8_latch_irreversible_witness :
    cleanup ([RegOp.regInterval 3, RegOp.regHandler 9].foldl applyReg sdkShut)
      = ([RegOp.regInterval 3, RegOp.regHandler 9].foldl applyReg sdkShut, {})
    ∧ (setManagedInterval sdkShut 3).2 = 3 := by
  have h := c8_latch_irreversible sdkShut [RegOp.regInterval 3, RegOp.regHandler 9] 3 rfl
  exact ⟨h.2.1, h.2.2.1⟩
